import Mathlib

/-!
Shallow embedding of the Chronic Pain Assessment application's core logic:
the validation helpers and HTTP client of `src/utils/validation.ts` (the
validation module and the API service module it bundles), the condition
routing of the cellular science page, the email sanitizer, and the quiz
state reducer of `src/src/context/QuizContext.tsx`.

JavaScript strings are modelled as Lean `String`, JS numbers that hold
integers as `Nat`/`Int`, optional values as `Option`.  Functions from the
repository keep their source names.  Where a function depends on code that
is not part of the repository snapshot (the `EMAIL_REGEX` constant, the
DOMPurify library, the `isConditionTreatable` lookup over the conditions
data table), the embedding is parametrised by an abstract function in that
position, so every theorem below holds for all instantiations of the
missing part.
-/

namespace PainAssessment

/-- Decides whether the character is one of the whitespace characters the
JavaScript regex class matches on the inputs we model (the ASCII
whitespace range plus the no-break space and byte-order mark). -/
def isJsWhitespace (c : Char) : Bool :=
  c == ' ' || c == '\t' || c == '\n' || c == '\r' || c == '\x0b' || c == '\x0c' ||
    c == Char.ofNat 160 || c == Char.ofNat 65279

/-- Decides whether `pat` occurs at the start of `s` (character lists). -/
def listStartsWith : List Char → List Char → Bool
  | [], _ => true
  | _ :: _, [] => false
  | p :: ps, c :: cs => p == c && listStartsWith ps cs

/-- Decides whether `pat` occurs as a contiguous substring of `s`
(character lists); models the JavaScript `String.includes` method. -/
def listContainsSub (s pat : List Char) : Bool :=
  match s with
  | [] => pat.isEmpty
  | _ :: rest => listStartsWith pat s || listContainsSub rest pat

/-- Models the JavaScript `s.includes(pat)` substring test on strings. -/
def strContainsSub (s pat : String) : Bool :=
  listContainsSub s.toList pat.toList

/-- Models the JavaScript `s.trim()` method: strip the whitespace
characters from both ends.  (Implemented on the character list so it
evaluates by kernel reduction, unlike the position-based `String.trim`.) -/
def jsTrim (s : String) : String :=
  String.mk ((((s.toList.dropWhile isJsWhitespace).reverse).dropWhile
    isJsWhitespace).reverse)

/-- Models the JavaScript `s.toUpperCase()` method on the ASCII strings the
code applies it to. -/
def jsToUpperCase (s : String) : String :=
  String.mk (s.toList.map Char.toUpper)

/-- Models the JavaScript `s.toLowerCase()` method on the ASCII strings the
code applies it to. -/
def jsToLowerCase (s : String) : String :=
  String.mk (s.toList.map Char.toLower)

/-- Splits a character list at every occurrence of `sep` (the separators
are dropped); structural-recursion counterpart of `String.splitOn` for a
one-character separator. -/
def listSplitOn (sep : Char) : List Char → List (List Char)
  | [] => [[]]
  | c :: rest =>
    let r := listSplitOn sep rest
    if c == sep then [] :: r
    else
      match r with
      | h :: t => (c :: h) :: t
      | [] => [[c]]

/-- Character admitted by the `[^\s@]` class of the api module's email
regex: neither whitespace nor the at sign. -/
def emailAtomChar (c : Char) : Bool :=
  !(isJsWhitespace c) && c != '@'

/-- Embeds `isValidEmail` from the api module of `src/utils/validation.ts`:
`const emailRegex = /^[^\s@]+@[^\s@]+\.[^\s@]+$/; return emailRegex.test(email);`.
The regex matches exactly the strings of shape `a@b` where `a` is a
non-empty run of `[^\s@]` characters and `b` is a non-empty run of
`[^\s@]` characters that can be split as `x.y` with `x`, `y` non-empty,
i.e. `b` has a dot at some interior position. -/
def isValidEmail (email : String) : Bool :=
  match listSplitOn '@' email.toList with
  | [lp, dp] =>
      !lp.isEmpty && lp.all emailAtomChar &&
        (!dp.isEmpty && dp.all emailAtomChar) &&
        ((dp.drop 1).dropLast).contains '.'
  | _ => false

/-- Character admitted by the `[\d\s\-\+\(\)]` class of the api module's
phone regex. -/
def phoneChar (c : Char) : Bool :=
  c.isDigit || isJsWhitespace c || c == '-' || c == '+' || c == '(' || c == ')'

/-- Embeds `isValidPhone` from the api module of `src/utils/validation.ts`:
`const phoneRegex = /^[\d\s\-\+\(\)]{10,}$/; return phoneRegex.test(phone);`,
i.e. at least ten characters, all drawn from the digit/space/dash/plus/
parenthesis class. -/
def isValidPhone (phone : String) : Bool :=
  decide (10 ≤ phone.length) && phone.toList.all phoneChar

/-- API error codes of the `ApiErrorCode` enum in the api module. -/
inductive ApiErrorCode where
  | NETWORK_ERROR
  | TIMEOUT_ERROR
  | VALIDATION_ERROR
  | INVALID_EMAIL
  | INVALID_PHONE
  | SERVER_ERROR
  | NOT_FOUND
  | UNAUTHORIZED
  | FORBIDDEN
  | CSRF_TOKEN_MISSING
  | CSRF_TOKEN_INVALID
  | RATE_LIMIT
  | UNKNOWN_ERROR
deriving DecidableEq, Repr

/-- Outcome of `submitAssessment`: either an early validation failure with
its error code, or the POST of the payload to the given URL. -/
inductive SubmitOutcome where
  | failure (code : ApiErrorCode)
  | posted (url : String)
deriving DecidableEq, Repr

/-- The phone guard of `submitAssessment`:
`payload.contactInfo.phone && !isValidPhone(payload.contactInfo.phone)` —
a phone is provided (present and non-empty) but fails the phone regex. -/
def phoneProvidedInvalid (phone : Option String) : Bool :=
  match phone with
  | some p => p != "" && !(isValidPhone p)
  | none => false

/-- Embeds `submitAssessment` from the api module of
`src/utils/validation.ts` up to the point where the network request is
issued: the three contact validations run in source order and the POST to
`API_BASE_URL + '/api/assessment/submit'` happens only when all of them
pass.  `baseUrl` stands for the `API_BASE_URL` environment constant; the
optional `phone` models the optional `contactInfo.phone` field, and the
JavaScript truthiness tests on strings are empty-string tests. -/
def submitAssessment (baseUrl name email : String) (phone : Option String) :
    SubmitOutcome :=
  if email == "" || !(isValidEmail email) then
    .failure .INVALID_EMAIL
  else if phoneProvidedInvalid phone then
    .failure .INVALID_PHONE
  else if name == "" || decide ((jsTrim name).length < 2) then
    .failure .VALIDATION_ERROR
  else
    .posted (baseUrl ++ "/api/assessment/submit")

/-- Embeds `determineRoute` from the cellular science page component.
`isConditionTreatable` comes from the `@data/conditions` table, which is
not part of the snapshot, so it is passed in as an abstract predicate;
`selected` is the `selectedConditions` state and `other` the
`otherConditions` textarea content. -/
def determineRoute (isConditionTreatable : String → Bool)
    (selected : List String) (other : String) : String :=
  let hasSelectedConditions := decide (0 < selected.length)
  let hasOtherConditions := decide (0 < (jsTrim other).length)
  let fallthrough :=
    if hasOtherConditions && !hasSelectedConditions then "/condition-confirmation"
    else "/disqualified"
  if hasSelectedConditions then
    let hasTreatable := selected.any (fun id => isConditionTreatable id)
    let hasNonTreatable := selected.any (fun id => !(isConditionTreatable id))
    if hasNonTreatable && !hasTreatable then "/disqualified"
    else if hasTreatable then "/condition-confirmation"
    else fallthrough
  else fallthrough

/-- Embeds `sanitizeEmail` from the sanitizer module: run the input through
DOMPurify with the strict configuration, trim, then delete the characters
`<`, `>`, the single quote and the double quote.  DOMPurify is an external
library, so its strict-configuration pass is the abstract `purify`
parameter. -/
def sanitizeEmail (purify : String → String) (email : String) : String :=
  let trimmed := jsTrim (purify email)
  String.mk (trimmed.toList.filter (fun c =>
    !(c == '<' || c == '>' || c == Char.ofNat 39 || c == Char.ofNat 34)))

/-- Embeds `validateEmail` from `src/utils/validation.ts`: reject the empty
string, sanitize, reject an empty or consecutive-dots sanitized result,
then test the sanitized string against `VALIDATION_RULES.EMAIL_REGEX`.
That constant lives in the constants module, which is not part of the
snapshot, so the regex test is the abstract `emailRegexTest` parameter. -/
def validateEmail (purify : String → String) (emailRegexTest : String → Bool)
    (email : String) : Bool :=
  if email == "" then false
  else
    let sanitized := sanitizeEmail purify email
    if sanitized.length == 0 then false
    else if strContainsSub sanitized ".." then false
    else emailRegexTest sanitized

/-- Embeds `requiresCsrfToken` from the api module: the method, uppercased,
must be one of the state-changing HTTP methods. -/
def requiresCsrfToken (method : String) : Bool :=
  ["POST", "PUT", "DELETE", "PATCH"].contains (jsToUpperCase method)

/-- The `shouldUseCsrf` flag computed inside `apiFetch`:
`requiresCsrfToken(options.method) && !IS_TEST_ENV`. -/
def shouldUseCsrfFor (method : String) (isTestEnv : Bool) : Bool :=
  requiresCsrfToken method && !isTestEnv

/-- Whether `apiFetch` attaches the `X-CSRF-Token` header on an attempt:
the request must need CSRF protection and `getCsrfTokenForRequest` must
have produced a token (`tokenAvailable`). -/
def csrfHeaderAttached (method : String) (isTestEnv tokenAvailable : Bool) : Bool :=
  shouldUseCsrfFor method isTestEnv && tokenAvailable

/-- Retry configuration of the api module (`RetryConfig`). -/
structure RetryConfig where
  maxRetries : Nat
  baseDelay : Nat
  maxDelay : Nat
deriving DecidableEq, Repr

/-- The module-level `DEFAULT_RETRY_CONFIG`. -/
def DEFAULT_RETRY_CONFIG : RetryConfig :=
  { maxRetries := 3, baseDelay := 1000, maxDelay := 10000 }

/-- Embeds `getRetryDelay`: exponential backoff capped at `maxDelay`. -/
def getRetryDelay (attempt : Nat) (config : RetryConfig) : Nat :=
  let delay := config.baseDelay * 2 ^ attempt
  min delay config.maxDelay

/-- Embeds `mapHttpStatusToErrorCode` from the api module. -/
def mapHttpStatusToErrorCode (status : Nat) : ApiErrorCode :=
  if status = 400 then .VALIDATION_ERROR
  else if status = 401 then .UNAUTHORIZED
  else if status = 403 then .FORBIDDEN
  else if status = 404 then .NOT_FOUND
  else if status = 429 then .RATE_LIMIT
  else if status = 500 ∨ status = 502 ∨ status = 503 ∨ status = 504 then .SERVER_ERROR
  else .UNKNOWN_ERROR

/-- The JavaScript values that can sit in `apiFetch`'s `lastError` slot:
an `ApiError` with its code and optional HTTP status, a `TypeError`, or
any other thrown value. -/
inductive JsError where
  | apiErr (code : ApiErrorCode) (statusCode : Option Nat)
  | typeError
  | raw
deriving DecidableEq, Repr

/-- Embeds `isRetryableError`: an `ApiError` is retryable when its code is
`NETWORK_ERROR` or `TIMEOUT_ERROR` or its status code is at least 500;
any `TypeError` (a fetch network failure) is retryable; nothing else is. -/
def isRetryableError : JsError → Bool
  | .apiErr code statusCode =>
      code == .NETWORK_ERROR || code == .TIMEOUT_ERROR ||
        (match statusCode with
         | some s => decide (500 ≤ s)
         | none => false)
  | .typeError => true
  | .raw => false

/-- What the environment (server plus network) does to one fetch attempt:
a successful (`response.ok`) response, a non-ok HTTP response with its
status and the `code`/`message` fields of its parsed JSON body, or a
thrown `AbortError` (timeout), `TypeError` (network failure), or other
exception. -/
inductive AttemptOutcome where
  | ok
  | http (status : Nat) (code : Option String) (message : Option String)
  | abortErr
  | typeErr
  | otherErr
deriving DecidableEq, Repr

/-- The `isCsrfError` test inside `apiFetch`'s 403 branch: the response
body's `code` is `CSRF_TOKEN_INVALID` or `CSRF_TOKEN_MISSING`, or its
`message`, lowercased, contains `csrf`. -/
def isCsrfErrorData (code message : Option String) : Bool :=
  code == some "CSRF_TOKEN_INVALID" || code == some "CSRF_TOKEN_MISSING" ||
    (match message with
     | some m => strContainsSub (jsToLowerCase m) "csrf"
     | none => false)

/-- Result of an `apiFetch` call: success, or a failure with its code (the
success data and the error strings are not modelled). -/
inductive ApiResult where
  | ok
  | fail (code : ApiErrorCode)
deriving DecidableEq, Repr

/-- The value `apiFetch` returns after the loop exhausts its retries:
`lastError`'s code when it is an `ApiError`, `UNKNOWN_ERROR` otherwise
(including when no attempt ever ran and `lastError` is still unset). -/
def lastErrorResult : Option JsError → ApiResult
  | some (.apiErr code _) => .fail code
  | some .typeError => .fail .UNKNOWN_ERROR
  | some .raw => .fail .UNKNOWN_ERROR
  | none => .fail .UNKNOWN_ERROR

/-- The retry decision at the bottom of `apiFetch`'s catch block: retry
(using the already-computed result of the rest of the loop, counting one
more attempt) when attempts remain and the error is retryable, otherwise
break out and report `lastError`. -/
def retryOrFail (rest : ApiResult × Nat) (attempt maxRetries : Nat)
    (lastError : JsError) : ApiResult × Nat :=
  if attempt < maxRetries ∧ isRetryableError lastError = true then
    (rest.1, rest.2 + 1)
  else
    (lastErrorResult (some lastError), 1)

/-- The attempt loop of `apiFetch`, from a given attempt index.  `fuel` is
the number of loop iterations still allowed (`maxRetries + 1 - attempt` at
every reachable call), `env` gives each attempt's outcome, `refreshOk`
says whether `refreshCsrfToken()` succeeds, `useCsrf` is the
`shouldUseCsrf` flag and `lastError` the error captured by the most recent
catch.  The second component of the result counts the fetch attempts
actually issued. -/
def apiFetchGo (env : Nat → AttemptOutcome) (refreshOk useCsrf : Bool)
    (maxRetries : Nat) : Nat → Nat → Option JsError → ApiResult × Nat
  | 0, _, lastError => (lastErrorResult lastError, 0)
  | fuel + 1, attempt, lastError =>
    match env attempt with
    | .ok => (.ok, 1)
    | .http status code message =>
      if status = 403 ∧ useCsrf = true then
        if isCsrfErrorData code message then
          if attempt = 0 ∧ refreshOk = true then
            ((apiFetchGo env refreshOk useCsrf maxRetries fuel (attempt + 1)
                lastError).1,
              (apiFetchGo env refreshOk useCsrf maxRetries fuel (attempt + 1)
                lastError).2 + 1)
          else (.fail .CSRF_TOKEN_INVALID, 1)
        else (.fail .FORBIDDEN, 1)
      else
        if 400 ≤ status ∧ status < 500 then
          (.fail (mapHttpStatusToErrorCode status), 1)
        else
          retryOrFail
            (apiFetchGo env refreshOk useCsrf maxRetries fuel (attempt + 1)
              (some (.apiErr (mapHttpStatusToErrorCode status) (some status))))
            attempt maxRetries
            (.apiErr (mapHttpStatusToErrorCode status) (some status))
    | .abortErr =>
        retryOrFail
          (apiFetchGo env refreshOk useCsrf maxRetries fuel (attempt + 1)
            (some (.apiErr .TIMEOUT_ERROR none)))
          attempt maxRetries (.apiErr .TIMEOUT_ERROR none)
    | .typeErr =>
        retryOrFail
          (apiFetchGo env refreshOk useCsrf maxRetries fuel (attempt + 1)
            (some (.apiErr .NETWORK_ERROR none)))
          attempt maxRetries (.apiErr .NETWORK_ERROR none)
    | .otherErr =>
        retryOrFail
          (apiFetchGo env refreshOk useCsrf maxRetries fuel (attempt + 1)
            (some .raw))
          attempt maxRetries .raw

/-- Embeds `apiFetch`: run the attempt loop from attempt 0 with
`maxRetries + 1` iterations allowed and no `lastError`; the `shouldUseCsrf`
flag is computed from the request method and the test-environment flag as
in the source. -/
def apiFetch (env : Nat → AttemptOutcome) (refreshOk : Bool) (method : String)
    (isTestEnv : Bool) (retryConfig : RetryConfig) : ApiResult × Nat :=
  apiFetchGo env refreshOk (shouldUseCsrfFor method isTestEnv)
    retryConfig.maxRetries (retryConfig.maxRetries + 1) 0 none

/-- Embeds the `QuizState` interface of `src/src/context/QuizContext.tsx`.
The `painDuration` and `qualificationStatus` union types are modelled as
`String` (their runtime representation); `currentStep` is a JS number
holding an integer, modelled as `Int`. -/
structure QuizState where
  quizId : String
  currentStep : Int
  painDuration : String
  treatmentsTried : List String
  painMedicationsTypes : List String
  conditions : List String
  conditionOther : String
  missingActivities : List String
  missingOther : String
  urgencyLevel : String
  annualSpending : String
  openQuestions : String
  name : String
  email : String
  phone : String
  qualificationStatus : String
  treatableConditions : List String
  nonTreatableConditions : List String
  requiresManualReview : Bool
  approximatePainStartDate : String
  wantsNotification : Bool
deriving DecidableEq, Repr

/-- Payload of the `SET_CONTACT_INFO` action. -/
structure ContactPayload where
  name : String
  email : String
  phone : String
deriving DecidableEq, Repr

/-- Payload of the `SET_QUALIFICATION_STATUS` action: a
`Partial<Pick<QuizState, ...>>` of the four routing fields, each field
present (`some`) or absent (`none`). -/
structure QualificationPayload where
  qualificationStatus : Option String
  treatableConditions : Option (List String)
  nonTreatableConditions : Option (List String)
  requiresManualReview : Option Bool
deriving DecidableEq, Repr

/-- Embeds the `QuizAction` union type. -/
inductive QuizAction where
  | SET_PAIN_DURATION (payload : String)
  | SET_TREATMENTS_TRIED (payload : List String)
  | SET_PAIN_MEDICATIONS_TYPES (payload : List String)
  | SET_CONDITIONS (payload : List String)
  | SET_CONDITION_OTHER (payload : String)
  | SET_MISSING_ACTIVITIES (payload : List String)
  | SET_MISSING_OTHER (payload : String)
  | SET_URGENCY_LEVEL (payload : String)
  | SET_ANNUAL_SPENDING (payload : String)
  | SET_OPEN_QUESTIONS (payload : String)
  | SET_CONTACT_INFO (payload : ContactPayload)
  | SET_QUALIFICATION_STATUS (payload : QualificationPayload)
  | SET_APPROXIMATE_PAIN_START_DATE (payload : String)
  | SET_WANTS_NOTIFICATION (payload : Bool)
  | NEXT_STEP
  | PREV_STEP
  | GO_TO_STEP (payload : Int)
  | RESET
deriving DecidableEq, Repr

/-- Embeds the module-level `initialState` of the quiz context.  Its
`quizId` is generated at module load from the clock and a random number,
so it is a parameter here; every other field is the source literal. -/
def mkInitialState (quizId : String) : QuizState :=
  { quizId := quizId
    currentStep := 1
    painDuration := ""
    treatmentsTried := []
    painMedicationsTypes := []
    conditions := []
    conditionOther := ""
    missingActivities := []
    missingOther := ""
    urgencyLevel := ""
    annualSpending := ""
    openQuestions := ""
    name := ""
    email := ""
    phone := ""
    qualificationStatus := ""
    treatableConditions := []
    nonTreatableConditions := []
    requiresManualReview := false
    approximatePainStartDate := ""
    wantsNotification := false }

/-- Embeds `quizReducer`.  The reducer closes over the module-level
`initialState` (returned by `RESET`), passed here as `initialState`.  The
`SET_QUALIFICATION_STATUS` case spreads a partial payload over the state:
each routing field is overwritten when present in the payload and kept
otherwise. -/
def quizReducer (initialState state : QuizState) (action : QuizAction) :
    QuizState :=
  match action with
  | .SET_PAIN_DURATION p => { state with painDuration := p }
  | .SET_TREATMENTS_TRIED p => { state with treatmentsTried := p }
  | .SET_PAIN_MEDICATIONS_TYPES p => { state with painMedicationsTypes := p }
  | .SET_CONDITIONS p => { state with conditions := p }
  | .SET_CONDITION_OTHER p => { state with conditionOther := p }
  | .SET_MISSING_ACTIVITIES p => { state with missingActivities := p }
  | .SET_MISSING_OTHER p => { state with missingOther := p }
  | .SET_URGENCY_LEVEL p => { state with urgencyLevel := p }
  | .SET_ANNUAL_SPENDING p => { state with annualSpending := p }
  | .SET_OPEN_QUESTIONS p => { state with openQuestions := p }
  | .SET_CONTACT_INFO p =>
      { state with name := p.name, email := p.email, phone := p.phone }
  | .SET_QUALIFICATION_STATUS p =>
      { state with
        qualificationStatus := p.qualificationStatus.getD state.qualificationStatus
        treatableConditions := p.treatableConditions.getD state.treatableConditions
        nonTreatableConditions :=
          p.nonTreatableConditions.getD state.nonTreatableConditions
        requiresManualReview :=
          p.requiresManualReview.getD state.requiresManualReview }
  | .SET_APPROXIMATE_PAIN_START_DATE p =>
      { state with approximatePainStartDate := p }
  | .SET_WANTS_NOTIFICATION p => { state with wantsNotification := p }
  | .NEXT_STEP => { state with currentStep := state.currentStep + 1 }
  | .PREV_STEP => { state with currentStep := max 1 (state.currentStep - 1) }
  | .GO_TO_STEP p => { state with currentStep := p }
  | .RESET => initialState

/-- The values the `qualificationStatus` union type admits. -/
def validQualificationStatus (s : String) : Bool :=
  s == "qualified" || s == "disqualified_too_soon" ||
    s == "disqualified_non_treatable" || s == "manual_review" || s == ""

/-- Well-typedness of an action with respect to the TypeScript union type
of the `qualificationStatus` field: a `SET_QUALIFICATION_STATUS` payload
that carries the field carries one of its admitted values; every other
action is unconstrained. -/
def actionStatusWellTyped : QuizAction → Bool
  | .SET_QUALIFICATION_STATUS p =>
      match p.qualificationStatus with
      | some s => validQualificationStatus s
      | none => true
  | _ => true

/-- Identity stand-in for the DOMPurify pass, used to instantiate
parametrised theorems at concrete inputs. -/
def purifyIdW : String → String := fun s => s

/-- Accept-all stand-in for the `EMAIL_REGEX` test, used to instantiate
parametrised theorems at concrete inputs. -/
def regexTrueW : String → Bool := fun _ => true

/-- Environment in which every attempt receives a 403 whose body carries
the `CSRF_TOKEN_INVALID` code; used to instantiate `apiFetch` theorems. -/
def envCsrfW : Nat → AttemptOutcome :=
  fun _ => .http 403 (some "CSRF_TOKEN_INVALID") none

/-- Environment in which every attempt receives a plain 404; used to
instantiate `apiFetch` theorems. -/
def envNotFoundW : Nat → AttemptOutcome := fun _ => .http 404 none none

/-- Treatability predicate that marks every condition non-treatable; used
to instantiate `determineRoute` theorems at concrete inputs. -/
def nonTreatableAllW : String → Bool := fun _ => false

theorem retryOrFail_snd_le (rest : ApiResult × Nat) (a mr : Nat) (le : JsError) :
    (retryOrFail rest a mr le).2 ≤ rest.2 + 1 := by
  unfold retryOrFail
  split
  · exact Nat.le_refl _
  · exact Nat.succ_le_succ (Nat.zero_le _)

theorem retryOrFail_snd_pos (rest : ApiResult × Nat) (a mr : Nat) (le : JsError) :
    1 ≤ (retryOrFail rest a mr le).2 := by
  unfold retryOrFail
  split
  · exact Nat.succ_le_succ (Nat.zero_le _)
  · exact Nat.le_refl _

/-- The attempt loop never issues more fetch attempts than it has fuel. -/
theorem apiFetchGo_snd_le (env : Nat → AttemptOutcome) (ro u : Bool) (mr : Nat) :
    ∀ fuel a le, (apiFetchGo env ro u mr fuel a le).2 ≤ fuel := by
  intro fuel
  induction fuel with
  | zero => intro a le; simp [apiFetchGo]
  | succ f ih =>
    intro a le
    cases henv : env a with
    | ok => simp only [apiFetchGo, henv]; omega
    | http status code message =>
      simp only [apiFetchGo, henv]
      split_ifs with h1 h2 h3 h4
      · exact Nat.succ_le_succ (ih (a + 1) le)
      · exact Nat.succ_le_succ (Nat.zero_le f)
      · exact Nat.succ_le_succ (Nat.zero_le f)
      · exact Nat.succ_le_succ (Nat.zero_le f)
      · exact le_trans (retryOrFail_snd_le _ _ _ _)
          (Nat.succ_le_succ (ih (a + 1) _))
    | abortErr =>
      simp only [apiFetchGo, henv]
      exact le_trans (retryOrFail_snd_le _ _ _ _)
        (Nat.succ_le_succ (ih (a + 1) _))
    | typeErr =>
      simp only [apiFetchGo, henv]
      exact le_trans (retryOrFail_snd_le _ _ _ _)
        (Nat.succ_le_succ (ih (a + 1) _))
    | otherErr =>
      simp only [apiFetchGo, henv]
      exact le_trans (retryOrFail_snd_le _ _ _ _)
        (Nat.succ_le_succ (ih (a + 1) _))

/-- With fuel remaining, the attempt loop issues at least one attempt. -/
theorem apiFetchGo_snd_pos (env : Nat → AttemptOutcome) (ro u : Bool)
    (mr fuel a : Nat) (le : Option JsError) :
    1 ≤ (apiFetchGo env ro u mr (fuel + 1) a le).2 := by
  cases henv : env a with
  | ok => simp [apiFetchGo, henv]
  | http status code message =>
    simp only [apiFetchGo, henv]
    split_ifs with h1 h2 h3 h4
    · exact Nat.succ_le_succ (Nat.zero_le _)
    · exact Nat.le_refl 1
    · exact Nat.le_refl 1
    · exact Nat.le_refl 1
    · exact retryOrFail_snd_pos _ _ _ _
  | abortErr => simp only [apiFetchGo, henv]; exact retryOrFail_snd_pos _ _ _ _
  | typeErr => simp only [apiFetchGo, henv]; exact retryOrFail_snd_pos _ _ _ _
  | otherErr => simp only [apiFetchGo, henv]; exact retryOrFail_snd_pos _ _ _ _

/-- The status-code mapping never produces the network-failure code. -/
theorem mapHttp_beq_net (s : Nat) :
    (mapHttpStatusToErrorCode s == ApiErrorCode.NETWORK_ERROR) = false := by
  unfold mapHttpStatusToErrorCode
  split_ifs <;> rfl

/-- The status-code mapping never produces the timeout code. -/
theorem mapHttp_beq_timeout (s : Nat) :
    (mapHttpStatusToErrorCode s == ApiErrorCode.TIMEOUT_ERROR) = false := by
  unfold mapHttpStatusToErrorCode
  split_ifs <;> rfl

/-- C7: the `qualificationStatus` field only ever holds one of the five
admitted values: it is the empty string in the initial state, and every
well-typed `quizReducer` action maps a state with an admitted value to a
state with an admitted value. -/
theorem quizReducer_qualificationStatus_invariant
    (qid : String) (s : QuizState) (a : QuizAction) :
    (mkInitialState qid).qualificationStatus = "" ∧
      (validQualificationStatus s.qualificationStatus = true →
        actionStatusWellTyped a = true →
        validQualificationStatus
          ((quizReducer (mkInitialState qid) s a).qualificationStatus) = true) := by
  refine ⟨rfl, fun hs ha => ?_⟩
  cases a
  case SET_QUALIFICATION_STATUS p =>
    cases hq : p.qualificationStatus with
    | some v =>
        have hv : validQualificationStatus v = true := by
          simpa [actionStatusWellTyped, hq] using ha
        simpa [quizReducer, hq] using hv
    | none => simpa [quizReducer, hq] using hs
  case RESET => exact rfl
  all_goals exact hs

/-- Witness for C7 at a concrete state and action. -/
theorem quizReducer_qualificationStatus_invariant_witness :
    validQualificationStatus
      ((quizReducer (mkInitialState "q") (mkInitialState "q")
          .NEXT_STEP).qualificationStatus) = true :=
  (quizReducer_qualificationStatus_invariant "q" (mkInitialState "q")
      .NEXT_STEP).2 (by decide) (by decide)

/-- C9: each `SET_*` action rewrites exactly its designated fields.  The
single-field setters return the state with only that field replaced; the
`SET_CONTACT_INFO` action installs the payload's `name`, `email` and
`phone` and leaves all eighteen other fields untouched; the
`SET_QUALIFICATION_STATUS` action leaves every field outside its four
routing fields untouched. -/
theorem quizReducer_frame (init s : QuizState) :
    (∀ p, quizReducer init s (.SET_PAIN_DURATION p) = { s with painDuration := p }) ∧
    (∀ p, quizReducer init s (.SET_TREATMENTS_TRIED p) = { s with treatmentsTried := p }) ∧
    (∀ p, quizReducer init s (.SET_PAIN_MEDICATIONS_TYPES p) =
      { s with painMedicationsTypes := p }) ∧
    (∀ p, quizReducer init s (.SET_CONDITIONS p) = { s with conditions := p }) ∧
    (∀ p, quizReducer init s (.SET_CONDITION_OTHER p) = { s with conditionOther := p }) ∧
    (∀ p, quizReducer init s (.SET_MISSING_ACTIVITIES p) =
      { s with missingActivities := p }) ∧
    (∀ p, quizReducer init s (.SET_MISSING_OTHER p) = { s with missingOther := p }) ∧
    (∀ p, quizReducer init s (.SET_URGENCY_LEVEL p) = { s with urgencyLevel := p }) ∧
    (∀ p, quizReducer init s (.SET_ANNUAL_SPENDING p) = { s with annualSpending := p }) ∧
    (∀ p, quizReducer init s (.SET_OPEN_QUESTIONS p) = { s with openQuestions := p }) ∧
    (∀ p, quizReducer init s (.SET_APPROXIMATE_PAIN_START_DATE p) =
      { s with approximatePainStartDate := p }) ∧
    (∀ p, quizReducer init s (.SET_WANTS_NOTIFICATION p) =
      { s with wantsNotification := p }) ∧
    (∀ p, quizReducer init s (.SET_CONTACT_INFO p) =
      { s with name := p.name, email := p.email, phone := p.phone }) ∧
    (∀ p, (quizReducer init s (.SET_CONTACT_INFO p)).name = p.name ∧
      (quizReducer init s (.SET_CONTACT_INFO p)).email = p.email ∧
      (quizReducer init s (.SET_CONTACT_INFO p)).phone = p.phone ∧
      (quizReducer init s (.SET_CONTACT_INFO p)).quizId = s.quizId ∧
      (quizReducer init s (.SET_CONTACT_INFO p)).currentStep = s.currentStep ∧
      (quizReducer init s (.SET_CONTACT_INFO p)).painDuration = s.painDuration ∧
      (quizReducer init s (.SET_CONTACT_INFO p)).treatmentsTried = s.treatmentsTried ∧
      (quizReducer init s (.SET_CONTACT_INFO p)).painMedicationsTypes =
        s.painMedicationsTypes ∧
      (quizReducer init s (.SET_CONTACT_INFO p)).conditions = s.conditions ∧
      (quizReducer init s (.SET_CONTACT_INFO p)).conditionOther = s.conditionOther ∧
      (quizReducer init s (.SET_CONTACT_INFO p)).missingActivities =
        s.missingActivities ∧
      (quizReducer init s (.SET_CONTACT_INFO p)).missingOther = s.missingOther ∧
      (quizReducer init s (.SET_CONTACT_INFO p)).urgencyLevel = s.urgencyLevel ∧
      (quizReducer init s (.SET_CONTACT_INFO p)).annualSpending = s.annualSpending ∧
      (quizReducer init s (.SET_CONTACT_INFO p)).openQuestions = s.openQuestions ∧
      (quizReducer init s (.SET_CONTACT_INFO p)).qualificationStatus =
        s.qualificationStatus ∧
      (quizReducer init s (.SET_CONTACT_INFO p)).treatableConditions =
        s.treatableConditions ∧
      (quizReducer init s (.SET_CONTACT_INFO p)).nonTreatableConditions =
        s.nonTreatableConditions ∧
      (quizReducer init s (.SET_CONTACT_INFO p)).requiresManualReview =
        s.requiresManualReview ∧
      (quizReducer init s (.SET_CONTACT_INFO p)).approximatePainStartDate =
        s.approximatePainStartDate ∧
      (quizReducer init s (.SET_CONTACT_INFO p)).wantsNotification =
        s.wantsNotification) ∧
    (∀ p, (quizReducer init s (.SET_QUALIFICATION_STATUS p)).quizId = s.quizId ∧
      (quizReducer init s (.SET_QUALIFICATION_STATUS p)).currentStep = s.currentStep ∧
      (quizReducer init s (.SET_QUALIFICATION_STATUS p)).painDuration =
        s.painDuration ∧
      (quizReducer init s (.SET_QUALIFICATION_STATUS p)).treatmentsTried =
        s.treatmentsTried ∧
      (quizReducer init s (.SET_QUALIFICATION_STATUS p)).painMedicationsTypes =
        s.painMedicationsTypes ∧
      (quizReducer init s (.SET_QUALIFICATION_STATUS p)).conditions = s.conditions ∧
      (quizReducer init s (.SET_QUALIFICATION_STATUS p)).conditionOther =
        s.conditionOther ∧
      (quizReducer init s (.SET_QUALIFICATION_STATUS p)).missingActivities =
        s.missingActivities ∧
      (quizReducer init s (.SET_QUALIFICATION_STATUS p)).missingOther =
        s.missingOther ∧
      (quizReducer init s (.SET_QUALIFICATION_STATUS p)).urgencyLevel =
        s.urgencyLevel ∧
      (quizReducer init s (.SET_QUALIFICATION_STATUS p)).annualSpending =
        s.annualSpending ∧
      (quizReducer init s (.SET_QUALIFICATION_STATUS p)).openQuestions =
        s.openQuestions ∧
      (quizReducer init s (.SET_QUALIFICATION_STATUS p)).name = s.name ∧
      (quizReducer init s (.SET_QUALIFICATION_STATUS p)).email = s.email ∧
      (quizReducer init s (.SET_QUALIFICATION_STATUS p)).phone = s.phone ∧
      (quizReducer init s (.SET_QUALIFICATION_STATUS p)).approximatePainStartDate =
        s.approximatePainStartDate ∧
      (quizReducer init s (.SET_QUALIFICATION_STATUS p)).wantsNotification =
        s.wantsNotification) := by
  refine ⟨fun p => rfl, fun p => rfl, fun p => rfl, fun p => rfl, fun p => rfl,
    fun p => rfl, fun p => rfl, fun p => rfl, fun p => rfl, fun p => rfl,
    fun p => rfl, fun p => rfl, fun p => rfl, fun p => ?_, fun p => ?_⟩
  · exact ⟨rfl, rfl, rfl, rfl, rfl, rfl, rfl, rfl, rfl, rfl, rfl, rfl, rfl, rfl,
      rfl, rfl, rfl, rfl, rfl, rfl, rfl⟩
  · exact ⟨rfl, rfl, rfl, rfl, rfl, rfl, rfl, rfl, rfl, rfl, rfl, rfl, rfl, rfl,
      rfl, rfl, rfl⟩

/-- C10: `PREV_STEP` clamps the step at 1 (`max(1, currentStep - 1)`), so
it can never push `currentStep` below 1, and `NEXT_STEP` increments it. -/
theorem quizReducer_step_navigation (init s : QuizState) :
    (quizReducer init s .PREV_STEP).currentStep = max 1 (s.currentStep - 1) ∧
    1 ≤ (quizReducer init s .PREV_STEP).currentStep ∧
    (quizReducer init s .NEXT_STEP).currentStep = s.currentStep + 1 :=
  ⟨rfl, le_max_left 1 (s.currentStep - 1), rfl⟩

/-- C5: `requiresCsrfToken` holds exactly for the uppercased state-changing
methods POST, PUT, DELETE, PATCH, is false for the default method GET, and
`apiFetch` attaches the `X-CSRF-Token` header only when `requiresCsrfToken`
holds for the request method. -/
theorem requiresCsrfToken_spec (m : String) :
    (requiresCsrfToken m = true ↔
      (jsToUpperCase m = "POST" ∨ jsToUpperCase m = "PUT" ∨
        jsToUpperCase m = "DELETE" ∨ jsToUpperCase m = "PATCH")) ∧
    requiresCsrfToken "GET" = false ∧
    (∀ t tok, csrfHeaderAttached m t tok = true → requiresCsrfToken m = true) := by
  refine ⟨?_, by decide, fun t tok h => ?_⟩
  · simp [requiresCsrfToken]
  · simp only [csrfHeaderAttached, shouldUseCsrfFor, Bool.and_eq_true] at h
    exact h.1.1

/-- Witness for C5: the header can actually be attached for a POST. -/
theorem requiresCsrfToken_spec_witness : requiresCsrfToken "POST" = true :=
  (requiresCsrfToken_spec "POST").2.2 false true (by decide)

/-- C8: `validateEmail` accepts exactly the non-empty inputs whose
sanitized form is non-empty, has no two consecutive dots, and passes the
`EMAIL_REGEX` test — the regex sees the sanitized string, never the raw
input. -/
theorem validateEmail_spec (purify : String → String)
    (emailRegexTest : String → Bool) (email : String) :
    validateEmail purify emailRegexTest email = true ↔
      (¬(email = "") ∧ (sanitizeEmail purify email).length ≠ 0 ∧
        strContainsSub (sanitizeEmail purify email) ".." = false ∧
        emailRegexTest (sanitizeEmail purify email) = true) := by
  by_cases h1 : email = ""
  · simp [validateEmail, h1]
  · by_cases h2 : (sanitizeEmail purify email).length = 0
    · simp [validateEmail, h1, h2]
    · by_cases h3 : strContainsSub (sanitizeEmail purify email) ".." = true
      · simp [validateEmail, h1, h2, h3]
      · simp [validateEmail, h1, h2, h3, Bool.not_eq_true]

/-- Witness for C8 at a concrete email with the identity purifier and an
accept-all regex test. -/
theorem validateEmail_spec_witness :
    validateEmail purifyIdW regexTrueW "user@example.com" = true :=
  (validateEmail_spec purifyIdW regexTrueW "user@example.com").mpr
    ⟨by decide, by decide, by decide, by decide⟩

/-- C3: `determineRoute` sends a selection consisting only of
non-treatable conditions to `/disqualified`, any selection containing a
treatable condition to `/condition-confirmation`, an empty selection with
non-blank other-conditions text to `/condition-confirmation`, and an empty
selection with blank text to `/disqualified`; it always produces exactly
one of those two routes. -/
theorem determineRoute_spec (isTreatable : String → Bool)
    (sel : List String) (other : String) :
    ((sel ≠ [] ∧ ∀ id ∈ sel, isTreatable id = false) →
        determineRoute isTreatable sel other = "/disqualified") ∧
    ((∃ id ∈ sel, isTreatable id = true) →
        determineRoute isTreatable sel other = "/condition-confirmation") ∧
    ((sel = [] ∧ 0 < (jsTrim other).length) →
        determineRoute isTreatable sel other = "/condition-confirmation") ∧
    ((sel = [] ∧ (jsTrim other).length = 0) →
        determineRoute isTreatable sel other = "/disqualified") ∧
    (determineRoute isTreatable sel other = "/disqualified" ∨
        determineRoute isTreatable sel other = "/condition-confirmation") := by
  refine ⟨?_, ?_, ?_, ?_, ?_⟩
  · rintro ⟨hne, hall⟩
    have hsel : (0 < sel.length) := List.length_pos.mpr hne
    have hT : sel.any (fun id => isTreatable id) = false := by
      rw [List.any_eq_false]
      intro x hx
      simp [hall x hx]
    have hN : sel.any (fun id => !(isTreatable id)) = true := by
      rw [List.any_eq_true]
      obtain ⟨x, hx⟩ := List.exists_mem_of_ne_nil sel hne
      exact ⟨x, hx, by simp [hall x hx]⟩
    simp [determineRoute, hsel, hT, hN]
  · rintro ⟨id, hid, hT⟩
    have hne : sel ≠ [] := by rintro rfl; simp at hid
    have hsel : (0 < sel.length) := List.length_pos.mpr hne
    have hTany : sel.any (fun id => isTreatable id) = true := by
      rw [List.any_eq_true]; exact ⟨id, hid, hT⟩
    simp [determineRoute, hsel, hTany]
  · rintro ⟨rfl, hlen⟩
    simp [determineRoute, hlen]
  · rintro ⟨rfl, hlen⟩
    simp [determineRoute, hlen]
  · simp only [determineRoute]
    repeat' split
    all_goals first
      | exact Or.inl rfl
      | exact Or.inr rfl

/-- Witness for C3: a single selected non-treatable condition is
disqualified. -/
theorem determineRoute_spec_witness :
    determineRoute nonTreatableAllW ["lupus"] "" = "/disqualified" :=
  (determineRoute_spec nonTreatableAllW ["lupus"] "").1
    ⟨by decide, by intro id hid; rfl⟩

/-- C6: `submitAssessment` validates the contact record before any network
request, in source order — invalid or missing email first
(`INVALID_EMAIL`), then a provided-but-invalid phone (`INVALID_PHONE`),
then a missing or too-short name (`VALIDATION_ERROR`) — and POSTs to
`/api/assessment/submit` exactly when all three checks pass. -/
theorem submitAssessment_spec (baseUrl n e : String) (p : Option String) :
    (submitAssessment baseUrl n e p = .failure .INVALID_EMAIL ↔
      (e = "" ∨ isValidEmail e = false)) ∧
    (submitAssessment baseUrl n e p = .failure .INVALID_PHONE ↔
      (¬(e = "" ∨ isValidEmail e = false) ∧
        ∃ ph, p = some ph ∧ ph ≠ "" ∧ isValidPhone ph = false)) ∧
    (submitAssessment baseUrl n e p = .failure .VALIDATION_ERROR ↔
      (¬(e = "" ∨ isValidEmail e = false) ∧
        ¬(∃ ph, p = some ph ∧ ph ≠ "" ∧ isValidPhone ph = false) ∧
        (n = "" ∨ (jsTrim n).length < 2))) ∧
    (submitAssessment baseUrl n e p =
        .posted (baseUrl ++ "/api/assessment/submit") ↔
      (¬(e = "" ∨ isValidEmail e = false) ∧
        ¬(∃ ph, p = some ph ∧ ph ≠ "" ∧ isValidPhone ph = false) ∧
        ¬(n = "" ∨ (jsTrim n).length < 2))) := by
  have hm : phoneProvidedInvalid p = true ↔
      (∃ ph, p = some ph ∧ ph ≠ "" ∧ isValidPhone ph = false) := by
    cases p <;> simp [phoneProvidedInvalid]
  by_cases h1 : e = "" ∨ isValidEmail e = false
  · have b1 : (e == "" || !(isValidEmail e)) = true := by
      rcases h1 with h | h <;> simp [h]
    have eq1 : submitAssessment baseUrl n e p = .failure .INVALID_EMAIL := by
      simp [submitAssessment, b1]
    rw [eq1]
    exact ⟨iff_of_true rfl h1,
      iff_of_false (by simp) (fun hx => hx.1 h1),
      iff_of_false (by simp) (fun hx => hx.1 h1),
      iff_of_false (by simp) (fun hx => hx.1 h1)⟩
  · have hne : ¬(e = "") := fun h => h1 (Or.inl h)
    have hv : isValidEmail e = true := by
      cases hb : isValidEmail e
      · exact absurd (Or.inr hb) h1
      · rfl
    have b1 : (e == "" || !(isValidEmail e)) = false := by simp [hne, hv]
    by_cases h2 : ∃ ph, p = some ph ∧ ph ≠ "" ∧ isValidPhone ph = false
    · have b2 : phoneProvidedInvalid p = true := hm.mpr h2
      have eq2 : submitAssessment baseUrl n e p = .failure .INVALID_PHONE := by
        simp [submitAssessment, b1, b2]
      rw [eq2]
      exact ⟨iff_of_false (by simp) h1,
        iff_of_true rfl ⟨h1, h2⟩,
        iff_of_false (by simp) (fun hx => hx.2.1 h2),
        iff_of_false (by simp) (fun hx => hx.2.1 h2)⟩
    · have b2 : phoneProvidedInvalid p = false := by
        cases hb : phoneProvidedInvalid p
        · rfl
        · exact absurd (hm.mp hb) h2
      by_cases h3 : n = "" ∨ (jsTrim n).length < 2
      · have b3 : (n == "" || decide ((jsTrim n).length < 2)) = true := by
          rcases h3 with h | h <;> simp [h]
        have eq3 : submitAssessment baseUrl n e p = .failure .VALIDATION_ERROR := by
          simp [submitAssessment, b1, b2, b3]
        rw [eq3]
        exact ⟨iff_of_false (by simp) h1,
          iff_of_false (by simp) (fun hx => h2 hx.2),
          iff_of_true rfl ⟨h1, h2, h3⟩,
          iff_of_false (by simp) (fun hx => hx.2.2 h3)⟩
      · have b3 : (n == "" || decide ((jsTrim n).length < 2)) = false := by
          have hnn : ¬(n = "") := fun h => h3 (Or.inl h)
          have hln : ¬((jsTrim n).length < 2) := fun h => h3 (Or.inr h)
          simp [hnn, hln]
        have eq4 : submitAssessment baseUrl n e p =
            .posted (baseUrl ++ "/api/assessment/submit") := by
          simp [submitAssessment, b1, b2, b3]
        rw [eq4]
        exact ⟨iff_of_false (by simp) h1,
          iff_of_false (by simp) (fun hx => h2 hx.2),
          iff_of_false (by simp) (fun hx => h3 hx.2.2),
          iff_of_true rfl ⟨h1, h2, h3⟩⟩

/-- Witness for C6: a valid contact record reaches the POST. -/
theorem submitAssessment_spec_witness :
    submitAssessment "" "Jo" "user@example.com" none =
      .posted ("" ++ "/api/assessment/submit") :=
  (submitAssessment_spec "" "Jo" "user@example.com" none).2.2.2.mpr
    (by
      refine ⟨by decide, ?_, by decide⟩
      rintro ⟨ph, hph, hr⟩
      cases hph)

/-- C2: `getRetryDelay` computes `min(baseDelay * 2^n, maxDelay)` for every
attempt number and configuration, and `apiFetch` issues at most
`maxRetries + 1` attempts of a request. -/
theorem getRetryDelay_and_attempt_bound :
    (∀ (n : Nat) (config : RetryConfig),
        getRetryDelay n config = min (config.baseDelay * 2 ^ n) config.maxDelay) ∧
    (∀ (env : Nat → AttemptOutcome) (refreshOk : Bool) (method : String)
        (isTestEnv : Bool) (retryConfig : RetryConfig),
        (apiFetch env refreshOk method isTestEnv retryConfig).2 ≤
          retryConfig.maxRetries + 1) :=
  ⟨fun _ _ => rfl,
   fun env ro method t cfg =>
     apiFetchGo_snd_le env ro (shouldUseCsrfFor method t) cfg.maxRetries
       (cfg.maxRetries + 1) 0 none⟩

/-- C1: on a CSRF-classified 403 at the first attempt of a state-changing
request, `apiFetch` refreshes the token and retries exactly once — when the
refresh succeeds the run continues from attempt 1 (one extra attempt was
consumed), and if that retried attempt is again a CSRF-classified 403 the
call returns `CSRF_TOKEN_INVALID` after exactly 2 attempts; when the
refresh fails, or when a CSRF-classified 403 arrives at any attempt after
the first, the call returns `CSRF_TOKEN_INVALID` immediately with no
further attempt. -/
theorem apiFetch_csrf_refresh_single_retry
    (env : Nat → AttemptOutcome) (ro : Bool) (method : String)
    (cfg : RetryConfig) (c m : Option String)
    (hm : requiresCsrfToken method = true)
    (h0 : env 0 = .http 403 c m)
    (hc : isCsrfErrorData c m = true)
    (hmr : 1 ≤ cfg.maxRetries) :
    (ro = true →
      apiFetch env ro method false cfg =
        ((apiFetchGo env ro true cfg.maxRetries cfg.maxRetries 1 none).1,
          (apiFetchGo env ro true cfg.maxRetries cfg.maxRetries 1 none).2 + 1) ∧
      2 ≤ (apiFetch env ro method false cfg).2) ∧
    (ro = false →
      apiFetch env ro method false cfg = (.fail .CSRF_TOKEN_INVALID, 1)) ∧
    (∀ fuel a le c2 m2, a ≠ 0 → env a = .http 403 c2 m2 →
      isCsrfErrorData c2 m2 = true →
      apiFetchGo env ro true cfg.maxRetries (fuel + 1) a le =
        (.fail .CSRF_TOKEN_INVALID, 1)) ∧
    (∀ c2 m2, ro = true → env 1 = .http 403 c2 m2 →
      isCsrfErrorData c2 m2 = true →
      apiFetch env ro method false cfg = (.fail .CSRF_TOKEN_INVALID, 2)) := by
  have hu : shouldUseCsrfFor method false = true := by
    simp [shouldUseCsrfFor, hm]
  obtain ⟨k, hk⟩ : ∃ k, cfg.maxRetries = k + 1 :=
    ⟨cfg.maxRetries - 1, (Nat.succ_pred_eq_of_pos hmr).symm⟩
  have later : ∀ fuel a le c2 m2, a ≠ 0 → env a = .http 403 c2 m2 →
      isCsrfErrorData c2 m2 = true →
      apiFetchGo env ro true cfg.maxRetries (fuel + 1) a le =
        (.fail .CSRF_TOKEN_INVALID, 1) := by
    intro fuel a le c2 m2 ha henv hc2
    simp only [apiFetchGo, henv]
    rw [if_pos (show _ ∧ _ by constructor <;> trivial), if_pos hc2,
      if_neg (fun h => ha h.1)]
  have hred : apiFetch env ro method false cfg =
      if 0 = 0 ∧ ro = true then
        ((apiFetchGo env ro true cfg.maxRetries cfg.maxRetries 1 none).1,
          (apiFetchGo env ro true cfg.maxRetries cfg.maxRetries 1 none).2 + 1)
      else (.fail .CSRF_TOKEN_INVALID, 1) := by
    unfold apiFetch
    rw [hu]
    simp only [apiFetchGo, h0]
    rw [if_pos (show _ ∧ _ by constructor <;> trivial), if_pos hc]
  refine ⟨fun hro => ?_, fun hro => ?_, later, fun c2 m2 hro henv1 hc2 => ?_⟩
  · subst hro
    rw [hred, if_pos (show (0 : Nat) = 0 ∧ true = true from ⟨rfl, rfl⟩)]
    refine ⟨rfl, ?_⟩
    have hpos : 1 ≤ (apiFetchGo env true true cfg.maxRetries
        cfg.maxRetries 1 none).2 := by
      nth_rewrite 2 [hk]
      exact apiFetchGo_snd_pos env true true cfg.maxRetries k 1 none
    omega
  · subst hro
    rw [hred, if_neg (by simp)]
  · subst hro
    rw [hred, if_pos (show (0 : Nat) = 0 ∧ true = true from ⟨rfl, rfl⟩)]
    have hone : apiFetchGo env true true cfg.maxRetries cfg.maxRetries 1 none =
        (.fail .CSRF_TOKEN_INVALID, 1) := by
      nth_rewrite 2 [hk]
      exact later k 1 none c2 m2 (by omega) henv1 hc2
    rw [hone]

/-- Witness for C1: in the default configuration, with every attempt
answered by a CSRF-classified 403 and a succeeding token refresh, the call
fails with `CSRF_TOKEN_INVALID` after exactly two attempts. -/
theorem apiFetch_csrf_refresh_single_retry_witness :
    apiFetch envCsrfW true "POST" false DEFAULT_RETRY_CONFIG =
      (.fail .CSRF_TOKEN_INVALID, 2) :=
  (apiFetch_csrf_refresh_single_retry envCsrfW true "POST"
      DEFAULT_RETRY_CONFIG (some "CSRF_TOKEN_INVALID") none (by decide) rfl
      (by decide) (by decide)).2.2.2 (some "CSRF_TOKEN_INVALID") none rfl rfl
    (by decide)

/-- C4: a non-OK response with a 4xx status that is not the CSRF-handled
403 first-attempt case makes `apiFetch` return a failure after that single
attempt; an `ApiError` is classified retryable exactly when its code is
`NETWORK_ERROR` or `TIMEOUT_ERROR` or its status is at least 500; and any
run that issues a second attempt did so either through the CSRF refresh
path or because the attempt's error was retryable (timeout, network
failure, or a 5xx response) with retries remaining. -/
theorem apiFetch_4xx_no_retry :
    (∀ (env : Nat → AttemptOutcome) (ro u : Bool) (mr fuel a : Nat)
        (le : Option JsError) (status : Nat) (c m : Option String),
      env a = .http status c m → 400 ≤ status → status < 500 →
      ¬(status = 403 ∧ u = true ∧ isCsrfErrorData c m = true ∧
          a = 0 ∧ ro = true) →
      ∃ ec, apiFetchGo env ro u mr (fuel + 1) a le = (.fail ec, 1)) ∧
    (∀ (code : ApiErrorCode) (st : Option Nat),
      isRetryableError (.apiErr code st) = true ↔
        (code = .NETWORK_ERROR ∨ code = .TIMEOUT_ERROR ∨
          ∃ s, st = some s ∧ 500 ≤ s)) ∧
    (∀ (env : Nat → AttemptOutcome) (ro u : Bool) (mr fuel a : Nat)
        (le : Option JsError),
      2 ≤ (apiFetchGo env ro u mr (fuel + 1) a le).2 →
      (a = 0 ∧ ro = true ∧ u = true ∧
        ∃ c m, env a = .http 403 c m ∧ isCsrfErrorData c m = true) ∨
      (a < mr ∧ (env a = .abortErr ∨ env a = .typeErr ∨
        ∃ s c m, env a = .http s c m ∧ 500 ≤ s))) := by
  refine ⟨?_, ?_, ?_⟩
  · intro env ro u mr fuel a le status c m henv h400 h500 hno
    simp only [apiFetchGo, henv]
    by_cases hc1 : status = 403 ∧ u = true
    · rw [if_pos hc1]
      by_cases hc2 : isCsrfErrorData c m = true
      · rw [if_pos hc2,
          if_neg (fun har => hno ⟨hc1.1, hc1.2, hc2, har.1, har.2⟩)]
        exact ⟨.CSRF_TOKEN_INVALID, rfl⟩
      · rw [if_neg hc2]
        exact ⟨.FORBIDDEN, rfl⟩
    · rw [if_neg hc1, if_pos ⟨h400, h500⟩]
      exact ⟨mapHttpStatusToErrorCode status, rfl⟩
  · intro code st
    cases st <;> simp [isRetryableError, or_assoc]
  · intro env ro u mr fuel a le h2
    cases henv : env a with
    | ok => rw [apiFetchGo] at h2; simp [henv] at h2
    | http status c m =>
      simp only [apiFetchGo, henv] at h2
      by_cases hc1 : status = 403 ∧ u = true
      · rw [if_pos hc1] at h2
        by_cases hc2 : isCsrfErrorData c m = true
        · by_cases hc3 : a = 0 ∧ ro = true
          · exact Or.inl ⟨hc3.1, hc3.2, hc1.2, c, m, by rw [hc1.1], hc2⟩
          · rw [if_pos hc2, if_neg hc3] at h2
            simp at h2
        · rw [if_neg hc2] at h2
          simp at h2
      · rw [if_neg hc1] at h2
        by_cases hc4 : 400 ≤ status ∧ status < 500
        · rw [if_pos hc4] at h2
          simp at h2
        · rw [if_neg hc4] at h2
          unfold retryOrFail at h2
          by_cases hc5 : a < mr ∧ isRetryableError
              (.apiErr (mapHttpStatusToErrorCode status) (some status)) = true
          · refine Or.inr ⟨hc5.1, Or.inr (Or.inr ⟨status, c, m, rfl, ?_⟩)⟩
            have h5 := hc5.2
            simp [isRetryableError, mapHttp_beq_net, mapHttp_beq_timeout] at h5
            exact h5
          · rw [if_neg hc5] at h2
            simp at h2
    | abortErr =>
      simp only [apiFetchGo, henv] at h2
      unfold retryOrFail at h2
      by_cases hc : a < mr ∧ isRetryableError (.apiErr .TIMEOUT_ERROR none) = true
      · exact Or.inr ⟨hc.1, Or.inl rfl⟩
      · rw [if_neg hc] at h2
        simp at h2
    | typeErr =>
      simp only [apiFetchGo, henv] at h2
      unfold retryOrFail at h2
      by_cases hc : a < mr ∧ isRetryableError (.apiErr .NETWORK_ERROR none) = true
      · exact Or.inr ⟨hc.1, Or.inr (Or.inl rfl)⟩
      · rw [if_neg hc] at h2
        simp at h2
    | otherErr =>
      simp only [apiFetchGo, henv] at h2
      unfold retryOrFail at h2
      rw [if_neg (fun h => by simp [isRetryableError] at h)] at h2
      simp at h2

/-- Witness for C4: a plain 404 on the first attempt fails immediately
after one attempt. -/
theorem apiFetch_4xx_no_retry_witness :
    ∃ ec, apiFetchGo envNotFoundW false true 3 (3 + 1) 0 none =
      (.fail ec, 1) :=
  apiFetch_4xx_no_retry.1 envNotFoundW false true 3 3 0 none 404 none none rfl
    (by decide) (by decide) (by simp)

end PainAssessment
